import Mathlib

/-!
Verification development for the agentic browser-automation engine
(asu-kim/agentic-ai-access-control).

The repository drives a live browser through multi-step tasks while
enforcing safety boundaries.  This file gives a shallow embedding of the
pure decision logic of the four scripts
(`case_study/product_purchase/amazon_llama3.py`,
`case_study/banking_system/bank_llama3.py`,
`case_study/hotel_reservation/hotel.py`, `proposed_website/app.py`):

* the checkout-URL stop-guard predicate `_is_checkout_spc_url` together
  with a faithful model of the parts of CPython's `urllib.parse.urlparse`
  and `parse_qs` that it uses;
* the stop tool `amazon_stop_if_checkout_spc`;
* the ordered-fallback element resolvers `_find_first` (bank) and `_find`
  (hotel, with template parameters and Python `str.format` semantics);
* the click executors `_try_click` (amazon), `_click` (hotel) and
  `_click_candidates` (bank), with the dispatched click mechanisms made
  observable as a trace;
* the currency parser `_to_float_currency` and the balance tool
  `amex_get_balance`;
* the human-gate escalation primitive `human_gate`;
* the price-ceiling payment guard `mock_charge` of the demo web app;
* the tools `amazon_open_product` and `press`, whose error behaviour is
  modelled with `Except`.

Browser side effects (scrolling, sleeping, real DOM queries) are modelled
by explicit state/trace values or by query functions passed as arguments.
-/

/-! ## Python string primitives -/

/-- Python substring test (the expression pat in s).  An empty pattern is
contained in every string, matching Python. -/
def charsInfixOf (p : List Char) : List Char → Bool
  | [] => p.isEmpty
  | c :: rest => List.isPrefixOf p (c :: rest) || charsInfixOf p rest

/-- String-level wrapper for `charsInfixOf`. -/
def strContains (s pat : String) : Bool := charsInfixOf pat.data s.data

/-- Python str.lower, restricted to ASCII case mapping (all strings the
scripts compare are ASCII). -/
def strLower (s : String) : String := String.mk (s.data.map Char.toLower)

/-- Python str.upper, restricted to ASCII case mapping. -/
def strUpper (s : String) : String := String.mk (s.data.map Char.toUpper)

/-- Split a character list at the first occurrence of sep, returning the
parts before and after it, or none when sep does not occur.  This models
the Python idiom of testing membership and then calling split(sep, 1). -/
def splitFirstChar (sep : Char) : List Char → Option (List Char × List Char)
  | [] => none
  | c :: rest =>
    if c = sep then some ([], rest)
    else
      match splitFirstChar sep rest with
      | some (a, b) => some (c :: a, b)
      | none => none

/-- Split a character list at the last occurrence of sep (used to model
str.rfind in the urlparse params step). -/
def splitAtLastChar (sep : Char) : List Char → Option (List Char × List Char)
  | [] => none
  | c :: rest =>
    match splitAtLastChar sep rest with
    | some (a, b) => some (c :: a, b)
    | none => if c = sep then some ([], rest) else none

/-- Take characters until one of the delimiters is reached, returning the
taken part and the rest (models the netloc delimiter scan of urlsplit). -/
def takeUntilDelims (delims : List Char) : List Char → List Char × List Char
  | [] => ([], [])
  | c :: rest =>
    if delims.contains c then ([], c :: rest)
    else
      let r := takeUntilDelims delims rest
      (c :: r.1, r.2)

/-! ## Model of urllib.parse (the subset used by the amazon script)

The six-field result mirrors CPython's ParseResult.  The model covers:
removal of tab/CR/LF, scheme recognition, netloc splitting with the
"Invalid IPv6 URL" ValueError on unbalanced brackets, fragment and query
splitting, the params split of urlparse, and parse_qs with default
arguments (blank values dropped, '&' separator, plus and percent
decoding).  Percent escapes are decoded bytewise; multi-byte UTF-8
sequences and the exotic netloc validation errors of newer CPython are
outside the model, as are non-ASCII case foldings. -/

structure ParseResult where
  scheme : String
  netloc : String
  path : String
  params : String
  query : String
  fragment : String
  deriving DecidableEq

instance {ε α : Type} [DecidableEq ε] [DecidableEq α] : DecidableEq (Except ε α) := fun a b =>
  match a, b with
  | Except.ok x, Except.ok y =>
    if h : x = y then isTrue (by rw [h])
    else isFalse (by intro hc; injection hc; contradiction)
  | Except.error x, Except.error y =>
    if h : x = y then isTrue (by rw [h])
    else isFalse (by intro hc; injection hc; contradiction)
  | Except.ok _, Except.error _ => isFalse (by intro hc; cases hc)
  | Except.error _, Except.ok _ => isFalse (by intro hc; cases hc)

/-- Characters CPython allows in a URL scheme. -/
def schemeChars : List Char :=
  "abcdefghijklmnopqrstuvwxyzABCDEFGHIJKLMNOPQRSTUVWXYZ0123456789+-.".data

def isAsciiAlpha (c : Char) : Bool :=
  ('a' ≤ c && c ≤ 'z') || ('A' ≤ c && c ≤ 'Z')

/-- Scheme-recognition step of urlsplit: the text before the first colon
is a scheme when it is nonempty, starts with an ASCII letter and consists
of scheme characters; otherwise the URL is left whole. -/
def splitScheme (l : List Char) : List Char × List Char :=
  match splitFirstChar ':' l with
  | none => ([], l)
  | some (pre, post) =>
    match pre with
    | [] => ([], l)
    | c :: _ =>
      if isAsciiAlpha c && pre.all (fun ch => schemeChars.contains ch) then
        (pre.map Char.toLower, post)
      else ([], l)

/-- Model of urllib.parse.urlsplit.  Returns an error exactly where
CPython raises ValueError("Invalid IPv6 URL"). -/
def urlsplit (url : String) : Except String ParseResult :=
  let l := url.data.filter fun c => !(c == '\t') && !(c == '\r') && !(c == '\n')
  let sp := splitScheme l
  let nl : List Char × List Char :=
    match sp.2 with
    | '/' :: '/' :: r => takeUntilDelims ['/', '?', '#'] r
    | _ => ([], sp.2)
  if (nl.1.contains '[' && !(nl.1.contains ']')) ||
      (nl.1.contains ']' && !(nl.1.contains '[')) then
    Except.error "Invalid IPv6 URL"
  else
    let fr : List Char × List Char :=
      match splitFirstChar '#' nl.2 with
      | some (a, b) => (a, b)
      | none => (nl.2, [])
    let qu : List Char × List Char :=
      match splitFirstChar '?' fr.1 with
      | some (a, b) => (a, b)
      | none => (fr.1, [])
    Except.ok
      ⟨String.mk sp.1, String.mk nl.1, String.mk qu.1, "", String.mk qu.2,
        String.mk fr.2⟩

/-- Schemes for which urlparse performs the params split. -/
def uses_params_schemes : List String :=
  ["", "ftp", "hdl", "prospero", "http", "imap", "https", "shttp", "rtsp",
    "rtspu", "sip", "sips", "mms", "sftp", "tel"]

/-- Model of urllib.parse._splitparams: split at the first semicolon after
the last slash (or the first semicolon at all when there is no slash). -/
def splitparams (l : List Char) : List Char × List Char :=
  match splitAtLastChar '/' l with
  | some (pre, post) =>
    match splitFirstChar ';' post with
    | some (a, b) => (pre ++ '/' :: a, b)
    | none => (l, [])
  | none =>
    match splitFirstChar ';' l with
    | some (a, b) => (a, b)
    | none => (l, [])

/-- Model of urllib.parse.urlparse. -/
def urlparse (url : String) : Except String ParseResult :=
  match urlsplit url with
  | Except.error e => Except.error e
  | Except.ok s =>
    if uses_params_schemes.contains s.scheme && s.path.data.contains ';' then
      let pp := splitparams s.path.data
      Except.ok { s with path := String.mk pp.1, params := String.mk pp.2 }
    else Except.ok s

/-! ## Model of urllib.parse.parse_qs (default arguments) -/

def isHexDigit (c : Char) : Bool :=
  c.isDigit || ('a' ≤ c && c ≤ 'f') || ('A' ≤ c && c ≤ 'F')

def hexVal (c : Char) : Nat :=
  if c.isDigit then c.toNat - '0'.toNat
  else if 'a' ≤ c && c ≤ 'f' then c.toNat - 'a'.toNat + 10
  else c.toNat - 'A'.toNat + 10

/-- Model of unquote composed with the plus-for-space replacement used by
parse_qsl.  Valid percent escapes decode to the byte value; stray percent
signs are kept literally, as in Python. -/
def unquotePlusChars : List Char → List Char
  | [] => []
  | '+' :: rest => ' ' :: unquotePlusChars rest
  | '%' :: a :: b :: rest =>
    if isHexDigit a && isHexDigit b then
      Char.ofNat (16 * hexVal a + hexVal b) :: unquotePlusChars rest
    else '%' :: unquotePlusChars (a :: b :: rest)
  | c :: rest => c :: unquotePlusChars rest

/-- Python str.split with a single-character separator (total, structural
version so that concrete queries evaluate inside the kernel). -/
def splitOnChar (sep : Char) : List Char → List (List Char)
  | [] => [[]]
  | c :: rest =>
    let r := splitOnChar sep rest
    if c = sep then [] :: r
    else
      match r with
      | [] => [[c]]
      | h :: t => (c :: h) :: t

/-- Model of parse_qsl with default arguments: split the query on the
ampersand, skip empty chunks, skip chunks without an equals sign and
chunks with a blank value (keep_blank_values is False), and decode names
and values. -/
def parse_qsl (qs : String) : List (String × String) :=
  (splitOnChar '&' qs.data).foldr
    (fun pair acc =>
      if pair = [] then acc
      else
        match splitFirstChar '=' pair with
        | none => acc
        | some (n, v) =>
          if v = [] then acc
          else (String.mk (unquotePlusChars n), String.mk (unquotePlusChars v)) :: acc)
    []

/-- The expression query.get(key, [the list with the empty string])[0] on
the parse_qs dictionary: the first value bound to key in the query string,
or the empty string when the key is absent. -/
def parse_qs_get_first (qs key : String) : String :=
  match (parse_qsl qs).find? (fun kv => kv.1 == key) with
  | some kv => kv.2
  | none => ""

/-! ## The checkout stop-guard predicate (amazon_llama3.py lines 58-76) -/

/-- Body of `_is_checkout_spc_url` on a successfully parsed URL, mirroring
the source line by line.  The source also lowercases the netloc into a
variable host that is never used afterwards. -/
def checkoutCore (p : ParseResult) : Bool :=
  let _host := strLower p.netloc
  let path := strLower p.path
  if !(strContains path "/checkout/p/") || !(strContains path "/spc") then false
  else
    let pipeline := strLower (parse_qs_get_first p.query "pipelineType")
    if pipeline != "chewbacca" then false
    else true

/-- `_is_checkout_spc_url` from amazon_llama3.py.  The Python guard
`if not url` is modelled by the empty-string test (None is likewise
falsy); the try/except around parsing maps a parse error to false. -/
def _is_checkout_spc_url (url : String) : Bool :=
  if url = "" then false
  else
    match urlparse url with
    | Except.error _ => false
    | Except.ok parsed => checkoutCore parsed

/-- Path condition of the spec: the (lowercased) URL path contains both
irreversible-checkout markers. -/
def pathHit (p : ParseResult) : Bool :=
  strContains (strLower p.path) "/checkout/p/" && strContains (strLower p.path) "/spc"

/-- Flow-parameter condition of the spec: the first pipelineType query
value, lowercased, is exactly the expected token. -/
def pipelineHit (p : ParseResult) : Bool :=
  strLower (parse_qs_get_first p.query "pipelineType") == "chewbacca"

/-! ## Browser state and the checkout stop tool (amazon_llama3.py 349-373) -/

/-- The driver state visible to the stop tool: the current URL (None when
the driver reports none, modelled as an Option) and whether the Selenium
session is still open. -/
structure BrowserState where
  current_url : Option String
  session_open : Bool
  deriving DecidableEq

/-- driver.quit closes the session; the tool wraps it in try/except, so it
is modelled as always succeeding. -/
def driver_quit (st : BrowserState) : BrowserState := { st with session_open := false }

/-- `amazon_stop_if_checkout_spc` from amazon_llama3.py.  The three
find_elements probes for a place-order button are modelled by the probe
argument; the source binds their results to underscore names and never
uses them.  close_browser defaults to True in the source. -/
def amazon_stop_if_checkout_spc (probe : BrowserState → List Nat)
    (close_browser : Bool) (st : BrowserState) : String × BrowserState :=
  let current := st.current_url.getD ""
  if _is_checkout_spc_url current then
    let _ := probe st
    let st' := if close_browser then driver_quit st else st
    ("STOPPED_ON_CHECKOUT_SPC", st')
  else ("NOT_AT_CHECKOUT_SPC", st)

/-! ## Element resolution (bank_llama3.py 80-88, hotel.py 95-105) -/

/-- Selenium locator strategies used by the scripts. -/
inductive By where
  | css
  | xpath
  deriving DecidableEq

/-- Conversion in both resolvers: the string "css" selects CSS, anything
else selects XPath. -/
def howToBy (how : String) : By := if how = "css" then By.css else By.xpath

/-- `_find_first` from bank_llama3.py: walk the candidate list in declared
order, query the page for each selector, and return the first element of
the first non-empty result.  The page is modelled as the find_elements
query function d. -/
def _find_first {α : Type} (d : By → String → List α) :
    List (String × String) → Option α
  | [] => none
  | (how, sel) :: rest =>
    match d (howToBy how) sel with
    | [] => _find_first d rest
    | e :: _ => some e

/-! Python str.format on the selector patterns of hotel.py.  The patterns
use simple named placeholders only (a date), so the model covers plain
braced names: a missing name raises KeyError, an unmatched brace raises
ValueError.  Double-brace escapes, positional fields, attribute access
and format specs do not occur in the selector tables and are outside the
model. -/

inductive FmtErr where
  | keyError
  | valueError
  deriving DecidableEq

def fmtLookup (fmt : List (String × String)) (k : String) : Option String :=
  (fmt.find? (fun p => p.1 == k)).map (fun p => p.2)

mutual

/-- Scan of the pattern outside a placeholder. -/
def formatGo (fmt : List (String × String)) : List Char → Except FmtErr (List Char)
  | [] => Except.ok []
  | '{' :: rest => formatName fmt [] rest
  | '}' :: _ => Except.error FmtErr.valueError
  | c :: rest => (formatGo fmt rest).map (fun t => c :: t)

/-- Scan of a placeholder name up to the closing brace. -/
def formatName (fmt : List (String × String)) (acc : List Char) :
    List Char → Except FmtErr (List Char)
  | [] => Except.error FmtErr.valueError
  | '}' :: rest =>
    match fmtLookup fmt (String.mk acc.reverse) with
    | none => Except.error FmtErr.keyError
    | some v => (formatGo fmt rest).map (fun t => v.data ++ t)
  | c :: rest => formatName fmt (c :: acc) rest

end

/-- `_find` from hotel.py: for each candidate, substitute the parameters
into the pattern when fmt is nonempty, falling back to the literal
pattern on KeyError (a ValueError is not caught and escapes), then query
and return the first match of the first non-empty result. -/
def _find {α : Type} (d : By → String → List α) (cands : List (String × String))
    (fmt : List (String × String)) : Except FmtErr (Option α) :=
  match cands with
  | [] => Except.ok none
  | (how, sel) :: rest =>
    let s? : Except FmtErr String :=
      if fmt.isEmpty then Except.ok sel
      else
        match formatGo fmt sel.data with
        | Except.ok cs => Except.ok (String.mk cs)
        | Except.error FmtErr.keyError => Except.ok sel
        | Except.error FmtErr.valueError => Except.error FmtErr.valueError
    match s? with
    | Except.error e => Except.error e
    | Except.ok s =>
      match d (howToBy how) s with
      | [] => _find d rest fmt
      | e :: _ => Except.ok (some e)

/-! ## Click executors (amazon_llama3.py 84-110, hotel.py 107-120,
bank_llama3.py 90-96) -/

/-- The two click mechanisms of the engine: the native Selenium
element.click and the programmatic execute_script click dispatched on the
element. -/
inductive Mech where
  | native
  | js
  deriving DecidableEq

/-- Whether each mechanism would succeed on a concrete element.  The
scroll-into-view calls preceding the clicks only position the viewport
and are modelled as effect-free. -/
structure ClickTarget where
  nativeOk : Bool
  jsOk : Bool
  deriving DecidableEq

/-- Attempt loop of `_try_click` from amazon_llama3.py: on each of the
retries iterations the element is looked up afresh (find is indexed by the
attempt number; none models an empty find_elements result, which the
source skips with continue).  A native click is attempted first and the
programmatic click only on its failure; the pair returned is the boolean
result together with the trace of dispatched mechanisms. -/
def try_click_go (find : Nat → Option ClickTarget) (i : Nat) :
    Nat → Bool × List Mech
  | 0 => (false, [])
  | n + 1 =>
    match find i with
    | none => try_click_go find (i + 1) n
    | some t =>
      if t.nativeOk then (true, [Mech.native])
      else if t.jsOk then (true, [Mech.native, Mech.js])
      else
        let r := try_click_go find (i + 1) n
        (r.1, Mech.native :: Mech.js :: r.2)

/-- `_try_click` from amazon_llama3.py (retries defaults to 2 in the
source). -/
def _try_click (find : Nat → Option ClickTarget) (retries : Nat) :
    Bool × List Mech :=
  try_click_go find 0 retries

/-- `_click` from hotel.py: resolve via `_find`, give up when nothing
matched, then dispatch the programmatic click first and fall back to the
native click; both failing yields False.  A ValueError escaping from
`_find` escapes from `_click` as well. -/
def _click (d : By → String → List ClickTarget) (cands : List (String × String))
    (fmt : List (String × String)) : Except FmtErr (Bool × List Mech) :=
  match _find d cands fmt with
  | Except.error e => Except.error e
  | Except.ok none => Except.ok (false, [])
  | Except.ok (some t) =>
    if t.jsOk then Except.ok (true, [Mech.js])
    else if t.nativeOk then Except.ok (true, [Mech.js, Mech.native])
    else Except.ok (false, [Mech.js, Mech.native])

/-- `_click_candidates` from bank_llama3.py: resolve via `_find_first`,
return False when nothing matched, and otherwise issue only the
programmatic click.  The execute_script call is not wrapped in
try/except, so a failing programmatic click escapes as a WebDriver
exception. -/
def _click_candidates (d : By → String → List ClickTarget)
    (cands : List (String × String)) : Except String Bool :=
  match _find_first d cands with
  | none => Except.ok false
  | some t => if t.jsOk then Except.ok true else Except.error "WebDriverException"

/-! ## Currency parsing (bank_llama3.py 101-117) and the balance tool
(bank_llama3.py 375-386)

Python float results are modelled exactly as rationals: the parser only
ever receives strings over digits, dot and minus after the cleanup, and
the claims compare against decimal literals, so the decimal value is the
faithful observable (IEEE rounding of the final float is outside the
model, as are underscore digit separators and exponent forms, which the
cleanup cannot produce). -/

/-- Characters kept by the cleanup regular expression (ASCII digits, dot,
comma, minus; the re module's digit class also admits non-ASCII digits,
which do not occur in the balances the clone renders). -/
def currencyKeep (c : Char) : Bool :=
  c.isDigit || c == '.' || c == ',' || c == '-'

def digitsVal (l : List Char) : Nat :=
  l.foldl (fun n c => 10 * n + (c.toNat - '0'.toNat)) 0

/-- Model of Python float() on the cleaned-up alphabet: an optional sign,
then digits with at most one dot and at least one digit overall. -/
def pyFloat (l : List Char) : Option ℚ :=
  let sb : Bool × List Char :=
    match l with
    | '-' :: rest => (true, rest)
    | '+' :: rest => (false, rest)
    | _ => (false, l)
  let body := sb.2
  if body.contains '-' || body.contains '+' || body.isEmpty then none
  else
    let sign : ℚ := if sb.1 then -1 else 1
    match splitFirstChar '.' body with
    | none => if body.all Char.isDigit then some (sign * digitsVal body) else none
    | some (a, b) =>
      if b.contains '.' then none
      else if (a ++ b).all Char.isDigit && !(a ++ b).isEmpty then
        some (sign * ((digitsVal a : ℚ) + (digitsVal b : ℚ) / 10 ^ b.length))
      else none

/-- `_to_float_currency` from bank_llama3.py, translated line by line:
falsy input is None; non-breaking and narrow no-break spaces are removed;
everything but digits, dot, comma, minus is removed; when more than one
comma occurs together with a dot the commas are removed; then all commas
are removed and the rest is parsed as a float, with a ValueError mapped
to None. -/
def _to_float_currency (text : String) : Option ℚ :=
  if text = "" then none
  else
    let t := text.data.filter fun c => !(c == '\u00A0') && !(c == '\u202F')
    let t := t.filter currencyKeep
    let t := if 1 < t.count ',' ∧ t.contains '.' then t.filter (fun c => !(c == ',')) else t
    let t := t.filter (fun c => !(c == ','))
    pyFloat t

/-- Currency pipeline as the specification words it: strip the
non-breaking spaces and all characters except digits, dot, comma, minus;
with more than one comma and a dot present drop the commas as thousands
separators, otherwise drop all commas; parse the remainder as a float,
with parse failure giving the unknown outcome. -/
def spec_to_float_currency (text : String) : Option ℚ :=
  let t := text.data.filter fun c => !(c == '\u00A0') && !(c == '\u202F')
  let t := t.filter currencyKeep
  let t :=
    if 1 < t.count ',' ∧ t.contains '.' then t.filter (fun c => !(c == ','))
    else t.filter (fun c => !(c == ','))
  pyFloat t

/-- Python str.strip: drop whitespace from both ends (ASCII whitespace;
the Unicode whitespace extension does not occur in the rendered
balances). -/
def pyStrip (s : String) : String :=
  String.mk ((s.data.dropWhile Char.isWhitespace).reverse.dropWhile Char.isWhitespace).reverse

/-- `_norm` from bank_llama3.py ((s or "").strip()); the element text is
never None in the model. -/
def _norm (s : String) : String := pyStrip s

/-- SELECTORS["BALANCE_VALUE"] from bank_llama3.py. -/
def SELECTORS_BALANCE_VALUE : List (String × String) :=
  [("css", "#account-balance .amount, [data-testid='account-balance-amount'], .balance-amount"),
   ("xpath", "//*[@id='account-balance']//*[contains(@class,'amount') or @data-testid='account-balance-amount']"),
   ("xpath", "//*[contains(@class,'balance')]//*[contains(@class,'amount') or contains(@class,'value')][1]")]

/-- `amex_get_balance` from bank_llama3.py: resolve the balance element
through the candidate table, report balance_not_found when nothing
matches, otherwise report the normalized text together with the parsed
value, printing unknown when parsing fails.  textOf gives each element's
text and showFloat stands for Python's float formatting, which only the
success branch uses. -/
def amex_get_balance (showFloat : ℚ → String) (d : By → String → List Nat)
    (textOf : Nat → String) : String :=
  match _find_first d SELECTORS_BALANCE_VALUE with
  | none => "balance_not_found"
  | some el =>
    let txt := _norm (textOf el)
    let val := _to_float_currency txt
    "balance_text=" ++ txt ++ "; balance_value=" ++
      (match val with
       | some v => showFloat v
       | none => "unknown")

/-! ## Human gate (bank_llama3.py 245-261, amazon_llama3.py 330-346)

Both scripts define the same gate up to the default prompt text.  Console
interaction is modelled as the observable trace of the call: the prompt
banner, then, only on a severed input channel (EOFError), six waiting
printouts each followed by a ten-second sleep. -/

inductive ConsoleInput where
  | line (s : String)
  | eof
  deriving DecidableEq

inductive GateEvent where
  | prompt (message : String)
  | printWaiting
  | sleepSecs (n : Nat)
  deriving DecidableEq

/-- `human_gate`: print the banner, wait for input; on EOFError fall back
to six bounded polls of ten seconds; in every case return human_done. -/
def human_gate (message : String) (inp : ConsoleInput) : String × List GateEvent :=
  match inp with
  | ConsoleInput.line _ => ("human_done", [GateEvent.prompt message])
  | ConsoleInput.eof =>
    ("human_done",
      GateEvent.prompt message ::
        (List.replicate 6 [GateEvent.printWaiting, GateEvent.sleepSecs 10]).flatten)

/-! ## Price-ceiling payment guard (proposed_website/app.py 614-620) -/

/-- Decrypted vault record; only the card number is consulted by the
charge message. -/
structure VaultData where
  cc_number : String
  deriving DecidableEq

/-- Python s[-4:]: the last four characters, or the whole string when it
is shorter. -/
def pySliceLast4 (s : String) : String :=
  String.mk (s.data.drop (s.data.length - 4))

/-- `mock_charge` from app.py: deny any amount above 200 outright, then
resolve the vault token (lookup models vault_get_blob_by_token), deny an
unresolvable token, and otherwise approve with the masked card number. -/
def mock_charge (lookup : Int → String → Option VaultData) (user_id : Int)
    (token : String) (amount : Int) : Bool × String :=
  if amount > 200 then (false, "Amount exceeds $200 limit.")
  else
    match lookup user_id token with
    | none => (false, "Invalid token.")
    | some data =>
      (true, "Approved $" ++ toString amount ++ " using vaulted token ending with " ++
        pySliceLast4 data.cc_number ++ ".")

/-! ## Tools whose failures escape (amazon_llama3.py 427-439,
bank_llama3.py 203-216) -/

/-- Selenium driver.find_element: raises NoSuchElementException when the
selector matches nothing, otherwise returns the first match.  The page is
the find query for CSS selectors. -/
def find_element (page : String → List Nat) (sel : String) : Except String Nat :=
  match page sel with
  | [] => Except.error "NoSuchElementException"
  | e :: _ => Except.ok e

/-- `amazon_open_product` from amazon_llama3.py: looks up the product
image link with driver.find_element, whose failure escapes as
NoSuchElementException, and then calls the three-positional-argument
helper as _try_click(link), which raises TypeError for the two missing
required arguments before any click happens; the status string
product_opened is unreachable. -/
def amazon_open_product (page : String → List Nat) : Except String String :=
  match find_element page "image[class='s-image']" with
  | Except.error e => Except.error e
  | Except.ok _link =>
    Except.error
      "TypeError: _try_click() missing 2 required positional arguments: 'val' and 'timeout'"

/-- Names defined on selenium.webdriver.common.keys.Keys (the subset a
planner plausibly sends; the source resolves names with getattr). -/
def seleniumKeys : List String :=
  ["NULL", "CANCEL", "HELP", "BACKSPACE", "BACK_SPACE", "TAB", "CLEAR", "RETURN",
   "ENTER", "SHIFT", "LEFT_SHIFT", "CONTROL", "LEFT_CONTROL", "ALT", "LEFT_ALT",
   "PAUSE", "ESCAPE", "SPACE", "PAGE_UP", "PAGE_DOWN", "END", "HOME", "LEFT",
   "ARROW_LEFT", "UP", "ARROW_UP", "RIGHT", "ARROW_RIGHT", "DOWN", "ARROW_DOWN",
   "INSERT", "DELETE", "SEMICOLON", "EQUALS", "NUMPAD0", "NUMPAD1", "NUMPAD2",
   "NUMPAD3", "NUMPAD4", "NUMPAD5", "NUMPAD6", "NUMPAD7", "NUMPAD8", "NUMPAD9",
   "MULTIPLY", "ADD", "SEPARATOR", "SUBTRACT", "DECIMAL", "DIVIDE", "F1", "F2",
   "F3", "F4", "F5", "F6", "F7", "F8", "F9", "F10", "F11", "F12", "META",
   "COMMAND"]

/-- `press` from bank_llama3.py: uppercase the key name, resolve it on the
Keys table, raise ValueError for an unknown name, otherwise dispatch the
key chord and confirm. -/
def press (key : String) : Except String String :=
  if seleniumKeys.contains (strUpper key) then Except.ok ("Pressed: " ++ key)
  else Except.error ("ValueError: Unsupported key: " ++ key)

/-! ## Concrete example pages used by witnesses and counterexamples -/

/-- Example page exhibiting two candidates that both match, used to show
that reordering the candidate list changes which one wins. -/
def dEx : By → String → List Nat :=
  fun _ s => if s = "a" then [1] else if s = "b" then [2] else []

/-- Example page for the template-parameter resolver: only the literal
(unsubstituted) date pattern matches a node. -/
def dDate : By → String → List Nat :=
  fun b s => if b = By.xpath ∧ s = "//td[@data-date='{date}']" then [7] else []

/-- Example page for the hotel and bank click executors: the button's
native click succeeds while the programmatic click fails. -/
def dNativeOnly : By → String → List ClickTarget :=
  fun _ s => if s = "btn" then [⟨true, false⟩] else []

/-- Example page whose button accepts only the programmatic click. -/
def dJsOnly : By → String → List ClickTarget :=
  fun _ s => if s = "btn" then [⟨false, true⟩] else []

/-- Example balance page: the first balance selector resolves to one
element. -/
def dBal : By → String → List Nat :=
  fun b s =>
    if b = By.css ∧
        s = "#account-balance .amount, [data-testid='account-balance-amount'], .balance-amount"
    then [0] else []

/-! ## Theorems -/

/-- Helper: the body of the checkout predicate on a parsed URL is exactly
the conjunction of the path condition and the flow-parameter condition. -/
theorem checkoutCore_eq (p : ParseResult) :
    checkoutCore p = (pathHit p && pipelineHit p) := by
  unfold checkoutCore pathHit pipelineHit
  cases h1 : strContains (strLower p.path) "/checkout/p/" <;>
    cases h2 : strContains (strLower p.path) "/spc" <;>
      cases h3 : strLower (parse_qs_get_first p.query "pipelineType") == "chewbacca" <;>
        simp_all [bne, beq_iff_eq]

/-- C1: for every URL that parses, the checkout-detection predicate is
true exactly when the path contains both irreversible-checkout markers
and the pipelineType query parameter equals the expected value; whenever
either of the two conditions fails on its own the predicate is false
(strict logical AND). -/
theorem checkout_detected_strict_and (url : String) (p : ParseResult)
    (h : urlparse url = Except.ok p) :
    (_is_checkout_spc_url url = true ↔ (pathHit p = true ∧ pipelineHit p = true)) ∧
    (pathHit p = false → _is_checkout_spc_url url = false) ∧
    (pipelineHit p = false → _is_checkout_spc_url url = false) := by
  by_cases hu : url = ""
  · subst hu
    have h0 : urlparse "" = Except.ok (⟨"", "", "", "", "", ""⟩ : ParseResult) := by decide
    rw [h0] at h
    injection h with h
    subst h
    refine ⟨?_, ?_, ?_⟩ <;> decide
  · have hcore : _is_checkout_spc_url url = checkoutCore p := by
      unfold _is_checkout_spc_url
      rw [if_neg hu, h]
    rw [hcore, checkoutCore_eq]
    refine ⟨?_, ?_, ?_⟩
    · simp
    · intro hp; simp [hp]
    · intro hp; simp [hp]

/-- Witness for C1: a URL satisfying both conditions is detected; a
path-only URL and a parameter-only URL are each rejected. -/
theorem checkout_detected_strict_and_witness :
    _is_checkout_spc_url
        "https://www.amazon.com/checkout/p/p123/spc?pipelineType=chewbacca" = true ∧
    _is_checkout_spc_url "https://www.amazon.com/checkout/p/p123/spc" = false ∧
    _is_checkout_spc_url "https://www.amazon.com/cart?pipelineType=chewbacca" = false := by
  refine ⟨?_, ?_, ?_⟩
  · exact (checkout_detected_strict_and
      "https://www.amazon.com/checkout/p/p123/spc?pipelineType=chewbacca"
      ⟨"https", "www.amazon.com", "/checkout/p/p123/spc", "", "pipelineType=chewbacca", ""⟩
      (by decide)).1.mpr (by decide)
  · exact (checkout_detected_strict_and "https://www.amazon.com/checkout/p/p123/spc"
      ⟨"https", "www.amazon.com", "/checkout/p/p123/spc", "", "", ""⟩
      (by decide)).2.2 (by decide)
  · exact (checkout_detected_strict_and "https://www.amazon.com/cart?pipelineType=chewbacca"
      ⟨"https", "www.amazon.com", "/cart", "", "pipelineType=chewbacca", ""⟩
      (by decide)).2.1 (by decide)

/-- C10: the checkout predicate is a total boolean function; the empty
string (the falsy case, which also covers a None current URL) yields
false and every URL on which urlparse raises yields false. -/
theorem checkout_url_total :
    (_is_checkout_spc_url "" = false) ∧
    (∀ url e, urlparse url = Except.error e → _is_checkout_spc_url url = false) ∧
    (∀ url, _is_checkout_spc_url url = true ∨ _is_checkout_spc_url url = false) := by
  refine ⟨rfl, ?_, ?_⟩
  · intro url e h
    unfold _is_checkout_spc_url
    by_cases hu : url = ""
    · rw [if_pos hu]
    · rw [if_neg hu, h]
  · intro url
    cases h : _is_checkout_spc_url url
    · right; rfl
    · left; rfl

/-- Witness for C10: a concrete unparseable URL (unbalanced IPv6 bracket)
makes urlparse fail and the predicate returns false on it. -/
theorem checkout_url_total_witness :
    urlparse "http://[::1" = Except.error "Invalid IPv6 URL" ∧
    _is_checkout_spc_url "http://[::1" = false := by
  exact ⟨by decide, checkout_url_total.2.1 "http://[::1" "Invalid IPv6 URL" (by decide)⟩

/-- C2: with the default argument, the stop tool returns the terminal
status and closes the session exactly on URLs accepted by the checkout
predicate, returns the negative status leaving the state untouched
otherwise, and its behaviour does not depend on the place-order-button
probe whose results the source discards. -/
theorem stop_if_checkout_terminates_iff (probe probe2 : BrowserState → List Nat)
    (st : BrowserState) :
    (_is_checkout_spc_url (st.current_url.getD "") = true →
        amazon_stop_if_checkout_spc probe true st =
          ("STOPPED_ON_CHECKOUT_SPC", { st with session_open := false })) ∧
    (_is_checkout_spc_url (st.current_url.getD "") = false →
        amazon_stop_if_checkout_spc probe true st = ("NOT_AT_CHECKOUT_SPC", st)) ∧
    ((amazon_stop_if_checkout_spc probe true st).2.session_open = false ↔
        (_is_checkout_spc_url (st.current_url.getD "") = true ∨ st.session_open = false)) ∧
    amazon_stop_if_checkout_spc probe true st = amazon_stop_if_checkout_spc probe2 true st := by
  unfold amazon_stop_if_checkout_spc driver_quit
  cases h : _is_checkout_spc_url (st.current_url.getD "") <;> simp [h]

/-- Witness for C2: on a checkout URL the tool stops and closes the
session; on a non-checkout URL it reports the negative status and leaves
the open session open. -/
theorem stop_if_checkout_terminates_iff_witness :
    amazon_stop_if_checkout_spc (fun _ => []) true
        ⟨some "https://www.amazon.com/checkout/p/p123/spc?pipelineType=chewbacca", true⟩ =
      ("STOPPED_ON_CHECKOUT_SPC",
        ⟨some "https://www.amazon.com/checkout/p/p123/spc?pipelineType=chewbacca", false⟩) ∧
    amazon_stop_if_checkout_spc (fun _ => []) true ⟨some "https://www.amazon.com/cart", true⟩ =
      ("NOT_AT_CHECKOUT_SPC", ⟨some "https://www.amazon.com/cart", true⟩) := by
  refine ⟨?_, ?_⟩
  · exact (stop_if_checkout_terminates_iff (fun _ => []) (fun _ => [])
      ⟨some "https://www.amazon.com/checkout/p/p123/spc?pipelineType=chewbacca", true⟩).1
      (by decide)
  · exact (stop_if_checkout_terminates_iff (fun _ => []) (fun _ => [])
      ⟨some "https://www.amazon.com/cart", true⟩).2.1 (by decide)

/-- C3: the price-ceiling guard denies any amount strictly above the
configured maximum of 200 with the exceeds-limit message, for every
vault lookup; at or below the ceiling, and in particular at exactly 200,
the charge is approved precisely when the token resolves. -/
theorem price_ceiling_guard (lookup : Int → String → Option VaultData)
    (uid : Int) (token : String) (amount : Int) :
    (amount > 200 →
        mock_charge lookup uid token amount = (false, "Amount exceeds $200 limit.")) ∧
    (amount ≤ 200 →
        ((mock_charge lookup uid token amount).1 = true ↔ (lookup uid token).isSome = true)) ∧
    ((mock_charge lookup uid token 200).1 = (lookup uid token).isSome) := by
  refine ⟨?_, ?_, ?_⟩
  · intro h
    unfold mock_charge
    rw [if_pos h]
  · intro h
    unfold mock_charge
    rw [if_neg (by omega : ¬ amount > 200)]
    cases lookup uid token <;> simp
  · unfold mock_charge
    rw [if_neg (by norm_num : ¬ (200 : Int) > 200)]
    cases lookup uid token <;> simp

/-- Witness for C3: at 201 the valid token is still denied with the
exceeds-limit message; at exactly 200 the charge goes through. -/
theorem price_ceiling_guard_witness :
    mock_charge (fun _ _ => some ⟨"4111111111111111"⟩) 1 "tok" 201 =
      (false, "Amount exceeds $200 limit.") ∧
    (mock_charge (fun _ _ => some ⟨"4111111111111111"⟩) 1 "tok" 200).1 = true := by
  refine ⟨?_, ?_⟩
  · exact (price_ceiling_guard (fun _ _ => some ⟨"4111111111111111"⟩) 1 "tok" 201).1
      (by norm_num)
  · exact ((price_ceiling_guard (fun _ _ => some ⟨"4111111111111111"⟩) 1 "tok" 200).2.1
      (by norm_num)).mpr rfl

/-- C4 (code bug): the catalog tool amazon_open_product never absorbs
failures into a status string: on every page it escapes with an
exception, concretely NoSuchElementException when the product-image
selector matches nothing, and the press tool escapes with ValueError on
an unrecognized key name instead of returning a status. -/
theorem tool_errors_escape :
    (∀ page : String → List Nat, ∃ e, amazon_open_product page = Except.error e) ∧
    (amazon_open_product (fun _ => []) = Except.error "NoSuchElementException") ∧
    (press "SUPERKEY" = Except.error "ValueError: Unsupported key: SUPERKEY") := by
  refine ⟨?_, rfl, by decide⟩
  intro page
  cases h : page "image[class='s-image']" with
  | nil =>
    refine ⟨"NoSuchElementException", ?_⟩
    unfold amazon_open_product find_element
    rw [h]
  | cons x xs =>
    refine
      ⟨"TypeError: _try_click() missing 2 required positional arguments: 'val' and 'timeout'",
        ?_⟩
    unfold amazon_open_product find_element
    rw [h]

/-- C5: the resolver visits candidates strictly in declared order and
returns the first matching node of the first candidate with at least one
match; it reports not-found exactly when every candidate yields zero
matches; the hotel resolver with no template parameters coincides with
it; and on a page where two candidates both match, swapping them changes
the winner. -/
theorem resolver_declared_order {α : Type} (d : By → String → List α) :
    (∀ (pre : List (String × String)) (c : String × String)
        (post : List (String × String)) (e : α) (es : List α),
        (∀ x ∈ pre, d (howToBy x.1) x.2 = []) →
        d (howToBy c.1) c.2 = e :: es →
        _find_first d (pre ++ c :: post) = some e) ∧
    (∀ cands : List (String × String),
        _find_first d cands = none ↔ ∀ x ∈ cands, d (howToBy x.1) x.2 = []) ∧
    (∀ cands : List (String × String),
        _find d cands [] = Except.ok (_find_first d cands)) ∧
    (_find_first dEx [("css", "a"), ("css", "b")] = some 1 ∧
      _find_first dEx [("css", "b"), ("css", "a")] = some 2) := by
  refine ⟨?_, ?_, ?_, by decide, by decide⟩
  · intro pre c post e es hpre hc
    obtain ⟨how, sel⟩ := c
    induction pre with
    | nil =>
      simp only [List.nil_append, _find_first]
      rw [hc]
    | cons p ps ih =>
      obtain ⟨ph, psel⟩ := p
      have hp : d (howToBy ph) psel = [] := hpre (ph, psel) (List.mem_cons_self _ _)
      simp only [List.cons_append, _find_first, hp]
      exact ih fun x hx => hpre x (List.mem_cons_of_mem _ hx)
  · intro cands
    induction cands with
    | nil => simp [_find_first]
    | cons p ps ih =>
      obtain ⟨how, sel⟩ := p
      cases h : d (howToBy how) sel with
      | nil =>
        simp only [_find_first, h]
        constructor
        · intro hn x hx
          rcases List.mem_cons.mp hx with hx' | hx'
          · rw [hx']; exact h
          · exact (ih.mp hn) x hx'
        · intro hall
          exact ih.mpr fun x hx => hall x (List.mem_cons_of_mem _ hx)
      | cons y ys =>
        simp only [_find_first, h]
        constructor
        · intro hn
          exact absurd hn (by simp)
        · intro hall
          have hx := hall (how, sel) (List.mem_cons_self _ _)
          simp [hx] at h
  · intro cands
    induction cands with
    | nil => rfl
    | cons p ps ih =>
      obtain ⟨how, sel⟩ := p
      simp only [_find, _find_first, List.isEmpty_nil, if_true]
      cases h : d (howToBy how) sel with
      | nil => simpa [h] using ih
      | cons y ys => simp [h]

/-- Witness for C5: with the example page, a first candidate with no
match is passed over and the second candidate's first node is returned. -/
theorem resolver_declared_order_witness :
    _find_first dEx [("css", "zz"), ("css", "b")] = some 2 := by
  exact (resolver_declared_order dEx).1 [("css", "zz")] ("css", "b") [] 2 []
    (by decide) (by decide)

/-- Counterexample to C9 as stated: the first (and only) candidate
requires the parameter date, which is missing from the supplied
parameters, yet the resolver still queries it (with the literal pattern)
and returns its node; had the entry been skipped without being queried,
the result would have been that of the empty remainder, namely none. -/
theorem missing_param_skip_counterexample :
    _find dDate [("xpath", "//td[@data-date='{date}']")] [("other", "x")] =
      Except.ok (some 7) ∧
    _find dDate ([] : List (String × String)) [("other", "x")] =
      Except.ok (none : Option Nat) := by
  exact ⟨by decide, by decide⟩

/-- C9 (amended): a candidate entry whose pattern requires a named
parameter missing from the (nonempty) supplied parameters is not
skipped: it is queried with the literal, unsubstituted pattern, exactly
like any other entry. -/
theorem missing_param_literal_amended {α : Type} (d : By → String → List α)
    (how sel : String) (rest fmt : List (String × String))
    (hfmt : fmt ≠ []) (hkey : formatGo fmt sel.data = Except.error FmtErr.keyError) :
    _find d ((how, sel) :: rest) fmt =
      match d (howToBy how) sel with
      | [] => _find d rest fmt
      | e :: _ => Except.ok (some e) := by
  have he : fmt.isEmpty = false := by
    cases fmt with
    | nil => exact absurd rfl hfmt
    | cons a l => rfl
  simp only [_find, he, Bool.false_eq_true, if_false, hkey]

/-- Witness for the amended C9: applying the theorem at the concrete date
pattern with a parameter map missing date resolves the literal pattern's
node. -/
theorem missing_param_literal_amended_witness :
    _find dDate [("xpath", "//td[@data-date='{date}']")] [("other", "x")] =
      Except.ok (some 7) ∧
    formatGo [("other", "x")] "//td[@data-date='{date}']".data =
      Except.error FmtErr.keyError := by
  refine ⟨?_, by decide⟩
  rw [missing_param_literal_amended dDate "xpath" "//td[@data-date='{date}']" []
    [("other", "x")] (by decide) (by decide)]
  decide

/-- Counterexample to C7 as stated: on an element whose native click
would succeed, the hotel executor dispatches the programmatic click
first (the first trace entry is the programmatic mechanism, not the
native one, although the native click had not failed), and the bank
executor raises instead of succeeding even though one of the two
mechanisms (the native click) would succeed. -/
theorem click_native_first_counterexample :
    _click dNativeOnly [("css", "btn")] [] =
      Except.ok (true, [Mech.js, Mech.native]) ∧
    [Mech.js, Mech.native].head? ≠ some Mech.native ∧
    _click_candidates dNativeOnly [("css", "btn")] =
      Except.error "WebDriverException" := by
  exact ⟨by decide, by decide, by decide⟩

/-- C7 (amended): only the product-purchase executor attempts the native
click first with the programmatic click as fallback and a retry loop
(its trace always starts with the native mechanism, a single attempt
dispatches the programmatic click exactly when the native one failed,
and with an element present it succeeds exactly when one of the two
mechanisms succeeds); the hotel executor tries the programmatic click
first and the native click only as fallback; the bank executor issues
only the programmatic click, raising when it fails. -/
theorem click_fallback_amended :
    (∀ (find : Nat → Option ClickTarget) (i n : Nat),
        (try_click_go find i n).2 = [] ∨
        (try_click_go find i n).2.head? = some Mech.native) ∧
    (∀ (t : ClickTarget) (i : Nat),
        try_click_go (fun _ => some t) i 1 =
          ((t.nativeOk || t.jsOk),
            if t.nativeOk then [Mech.native] else [Mech.native, Mech.js])) ∧
    (∀ (t : ClickTarget) (retries : Nat), 1 ≤ retries →
        (_try_click (fun _ => some t) retries).1 = (t.nativeOk || t.jsOk)) ∧
    (∀ (d : By → String → List ClickTarget) (cands fmt : List (String × String))
        (t : ClickTarget), _find d cands fmt = Except.ok (some t) →
        _click d cands fmt =
          Except.ok ((t.jsOk || t.nativeOk),
            if t.jsOk then [Mech.js] else [Mech.js, Mech.native])) ∧
    (∀ (d : By → String → List ClickTarget) (cands : List (String × String))
        (t : ClickTarget), _find_first d cands = some t →
        _click_candidates d cands =
          if t.jsOk then Except.ok true else Except.error "WebDriverException") := by
  refine ⟨?_, ?_, ?_, ?_, ?_⟩
  · intro find i n
    induction n generalizing i with
    | zero => left; rfl
    | succ m ih =>
      simp only [try_click_go]
      cases hf : find i with
      | none => exact ih (i + 1)
      | some t =>
        cases hn : t.nativeOk with
        | true => right; simp [hn]
        | false =>
          cases hj : t.jsOk with
          | true => right; simp [hn, hj]
          | false => right; simp [hn, hj]
  · intro t i
    cases hn : t.nativeOk <;> cases hj : t.jsOk <;>
      simp [try_click_go, hn, hj]
  · intro t retries hr
    obtain ⟨n, rfl⟩ : ∃ n, retries = n + 1 := ⟨retries - 1, by omega⟩
    unfold _try_click
    cases hn : t.nativeOk with
    | true => simp [try_click_go, hn]
    | false =>
      cases hj : t.jsOk with
      | true => simp [try_click_go, hn, hj]
      | false =>
        have aux : ∀ (m i : Nat), (try_click_go (fun _ => some t) i m).1 = false := by
          intro m
          induction m with
          | zero => intro i; rfl
          | succ k ihk =>
            intro i
            simp only [try_click_go, hn, hj]
            simpa using ihk (i + 1)
        simp [aux, hn, hj]
  · intro d cands fmt t h
    unfold _click
    rw [h]
    cases hj : t.jsOk <;> cases hn : t.nativeOk <;> simp [hj, hn]
  · intro d cands t h
    unfold _click_candidates
    rw [h]

/-- Witness for the amended C7: the amazon executor with the default two
retries succeeds on a native-only element, a single attempt on a
js-only element dispatches native first and then the programmatic
fallback, the hotel executor issues only the programmatic click on a
js-capable button, and the bank executor succeeds there as well. -/
theorem click_fallback_amended_witness :
    (_try_click (fun _ => some ⟨true, false⟩) 2).1 = true ∧
    try_click_go (fun _ => some ⟨false, true⟩) 0 1 =
      (true, [Mech.native, Mech.js]) ∧
    _click dJsOnly [("css", "btn")] [] = Except.ok (true, [Mech.js]) ∧
    _click_candidates dJsOnly [("css", "btn")] = Except.ok true := by
  refine ⟨?_, ?_, ?_, ?_⟩
  · exact (click_fallback_amended.2.2.1 ⟨true, false⟩ 2 (by omega)).trans (by decide)
  · exact (click_fallback_amended.2.1 ⟨false, true⟩ 0).trans (by decide)
  · exact (click_fallback_amended.2.2.2.1 dJsOnly [("css", "btn")] []
      ⟨false, true⟩ (by decide)).trans (by decide)
  · exact (click_fallback_amended.2.2.2.2 dJsOnly [("css", "btn")]
      ⟨false, true⟩ (by decide)).trans (by decide)

/-- C8: the human gate always terminates with exactly the string
human_done; on a delivered resume line it returns right after the prompt
with no polling, and on a severed input channel (end of file) it
performs exactly six bounded polls of ten seconds each and then returns
anyway. -/
theorem human_gate_always_returns (message : String) (inp : ConsoleInput) :
    ((human_gate message inp).1 = "human_done") ∧
    (∀ s, inp = ConsoleInput.line s →
        (human_gate message inp).2 = [GateEvent.prompt message]) ∧
    (inp = ConsoleInput.eof →
        (human_gate message inp).2 =
          GateEvent.prompt message ::
            (List.replicate 6 [GateEvent.printWaiting, GateEvent.sleepSecs 10]).flatten ∧
        (human_gate message inp).2.count (GateEvent.sleepSecs 10) = 6) := by
  cases inp with
  | line s =>
    refine ⟨rfl, ?_, ?_⟩
    · intro _ _; rfl
    · intro h; cases h
  | eof =>
    refine ⟨rfl, ?_, ?_⟩
    · intro s h; cases h
    · intro _
      exact ⟨rfl, rfl⟩

/-- Witness for C8: with a severed console the gate returns human_done
after exactly six ten-second polls; with a resume line it returns with
just the prompt. -/
theorem human_gate_always_returns_witness :
    (human_gate "Complete required step, then press ENTER in console." ConsoleInput.eof).1 =
      "human_done" ∧
    (human_gate "Complete required step, then press ENTER in console." ConsoleInput.eof).2.count
      (GateEvent.sleepSecs 10) = 6 ∧
    (human_gate "p" (ConsoleInput.line "")).2 = [GateEvent.prompt "p"] := by
  refine ⟨?_, ?_, ?_⟩
  · exact (human_gate_always_returns
      "Complete required step, then press ENTER in console." ConsoleInput.eof).1
  · exact ((human_gate_always_returns
      "Complete required step, then press ENTER in console." ConsoleInput.eof).2.2 rfl).2
  · exact (human_gate_always_returns "p" (ConsoleInput.line "")).2.1 "" rfl

/-- C6: the currency parser maps the dollar-formatted thousands string to
its decimal value; on every input it implements exactly the pipeline the
specification describes (strip the non-breaking spaces and everything
but digits, dot, comma, minus; with more than one comma alongside a dot
drop the commas as thousands separators, otherwise drop all commas;
parse the remainder, failure giving None); and the balance tool reports
a failed parse as the unknown outcome instead of raising. -/
theorem currency_parse_spec :
    (_to_float_currency "$1,234.56" = some ((123456 : ℚ) / 100)) ∧
    (∀ text, _to_float_currency text = spec_to_float_currency text) ∧
    (∀ (showFloat : ℚ → String) (d : By → String → List Nat)
        (textOf : Nat → String) (el : Nat),
        _find_first d SELECTORS_BALANCE_VALUE = some el →
        _to_float_currency (_norm (textOf el)) = none →
        amex_get_balance showFloat d textOf =
          "balance_text=" ++ _norm (textOf el) ++ "; balance_value=unknown") := by
  refine ⟨?_, ?_, ?_⟩
  · have h : _to_float_currency "$1,234.56" =
        some ((1 : ℚ) * ((digitsVal "1234".data : ℚ) + (digitsVal "56".data : ℚ) / 10 ^ 2)) :=
      rfl
    have d1 : (digitsVal "1234".data) = 1234 := rfl
    have d2 : (digitsVal "56".data) = 56 := rfl
    rw [h, d1, d2]
    norm_num
  · intro text
    by_cases ht : text = ""
    · subst ht; rfl
    · simp only [_to_float_currency, spec_to_float_currency, if_neg ht]
      set t :=
        (text.data.filter fun c => !(c == ' ') && !(c == ' ')).filter currencyKeep
        with hT
      by_cases hc : 1 < t.count ',' ∧ t.contains '.'
      · rw [if_pos hc, if_pos hc, List.filter_filter]
        simp only [Bool.and_self]
      · rw [if_neg hc, if_neg hc]
  · intro showFloat d textOf el hfind hparse
    simp only [amex_get_balance, hfind, hparse]
    rw [String.append_assoc]
    rfl

/-- Witness for C6: the parser maps the example string to its decimal
value, and on a page whose balance element renders unparseable text the
balance tool reports unknown. -/
theorem currency_parse_spec_witness :
    _to_float_currency "$1,234.56" = some ((123456 : ℚ) / 100) ∧
    amex_get_balance (fun _ => "") dBal (fun _ => "N/A") =
      "balance_text=N/A; balance_value=unknown" := by
  refine ⟨currency_parse_spec.1, ?_⟩
  exact currency_parse_spec.2.2 (fun _ => "") dBal (fun _ => "N/A") 0 (by decide) (by decide)
